import Mathlib

/-
  Verification of the LLMApiGateway request-routing and failover engine.

  Shallow embedding of:
  - src/llm_gateway_core/services/request_handler.py  (make_llm_request: SSE stream
    relay with first-event error detection, mid-stream scanning, non-streaming
    classification)
  - src/llm_gateway_core/api/v1/chat.py               (chat_completions: candidate
    loop, retries, sub-provider expansion, payload/header building)
  - src/llm_gateway_core/db/model_rotation_db.py      (ModelRotationDB.get_next_model_index)
  - src/llm_gateway_core/config/loader.py             (ConfigLoader.reload_fallback_rules,
    ConfigLoader.reload_providers_config, load_providers)

  Modelling conventions:
  - JSON values are the inductive `Json`; parsing by the third-party json5 library
    is an oracle parameter `parse : String → Option Json` (`none` = the library
    raises).  Byte chunks are `Chunk`: `.txt s` decodes to the UTF-8 string `s`,
    `.bin bs` raises UnicodeDecodeError on decode.
  - Network calls are an oracle `upstream : Nat → Option LLMResponse × Option String`
    giving the result of the n-th `make_llm_request` call of the request.
  - Python exceptions that escape the handler (TypeError, AttributeError) are the
    `ChatOutcome.pyError` case (FastAPI turns them into HTTP 500); `sys.exit(1)`
    paths are `none` / `.exited`.
  - Log statements, timeouts and connection management are not modelled; error
    detail strings from logging-only branches are abbreviated where no proved
    property depends on their text.
-/

namespace LLMGateway

/-- JSON values as produced by json5.loads.  `obj` models a Python dict
    (keys distinct, insertion ordered). -/
inductive Json where
  | null
  | bool (b : Bool)
  | num (n : Int)
  | str (s : String)
  | arr (elems : List Json)
  | obj (fields : List (String × Json))

/-- First binding of key `k` in an association list. -/
def lookupField : List (String × Json) → String → Option Json
  | [], _ => none
  | (k', v) :: rest, k => if k' == k then some v else lookupField rest k

/-- Python `d.get(k)` / `d[k]` on a parsed JSON dict; `none` for non-dicts
    (the code only indexes values json5 parsed from `{`-prefixed text). -/
def Json.getVal : Json → String → Option Json
  | .obj fs, k => lookupField fs k
  | _, _ => none

/-- Python `"k" in j` for a parsed JSON dict (the only case the code reaches). -/
def Json.hasKey (j : Json) (k : String) : Bool :=
  (j.getVal k).isSome

/-- Python truthiness of a decoded JSON value. -/
def Json.truthy : Json → Bool
  | .null => false
  | .bool b => b
  | .num n => n != 0
  | .str s => !s.data.isEmpty
  | .arr es => !es.isEmpty
  | .obj fs => !fs.isEmpty

/-- Python dict assignment `d[k] = v` (replace in place, else append). -/
def setEntry {α : Type} : List (String × α) → String → α → List (String × α)
  | [], k, v => [(k, v)]
  | (k', v') :: rest, k, v =>
      if k' == k then (k, v) :: rest else (k', v') :: setEntry rest k v

/-- `payload[k] = v` on the (always dict-valued) request payload. -/
def Json.setKey : Json → String → Json → Json
  | .obj fs, k, v => .obj (setEntry fs k v)
  | j, _, _ => j

/-- An upstream byte chunk: UTF-8 decodable text, or bytes whose decode raises. -/
inductive Chunk where
  | txt (s : String)
  | bin (bytes : List Nat)

/-- Python `if chunk:` on the raw bytes. -/
def chunkNonempty : Chunk → Bool
  | .txt s => !s.data.isEmpty
  | .bin bs => !bs.isEmpty

/-- Splits a character list on occurrences of the two-character separator
    `"\n\n"`, scanning left to right (Python `str.split("\n\n")`).  The fuel is
    the list length, so the recursion is structural and kernel-reducible. -/
def splitNNAux : Nat → List Char → List Char → List (List Char)
  | _, [], acc => [acc.reverse]
  | 0, cs, acc => [acc.reverse ++ cs]
  | fuel + 1, '\n' :: '\n' :: rest, acc => acc.reverse :: splitNNAux fuel rest []
  | fuel + 1, c :: rest, acc => splitNNAux fuel rest (c :: acc)

/-- Python `if chunk_part.strip()`: keep a split part iff stripping whitespace
    leaves it non-empty. -/
def stripNonempty (p : String) : Bool :=
  !(p.data.dropWhile Char.isWhitespace).isEmpty

/-- `[p for p in s.split("\n\n") if p.strip()]` — the SSE segments of a decoded
    chunk (request_handler.py:35, 70, 100). -/
def segments (s : String) : List String :=
  ((splitNNAux s.data.length s.data []).map String.mk).filter stripNonempty

/-- The characters of `"data: "` followed by an opening brace. -/
def dataMark : List Char := ['d', 'a', 't', 'a', ':', ' ', '\x7b']

/-- Python `chunk_str.startswith("data: " + brace)`. -/
def startsData (p : String) : Bool :=
  dataMark.isPrefixOf p.data

/-- Python `chunk_str[len("data: "):]` — the JSON text after the field name. -/
def dropDataTag (p : String) : String :=
  String.mk (p.data.drop 6)

/-- Outcome of stream_generator's per-chunk segment loop
    (request_handler.py:36-49) while `looking_first_chunk` may still be set:
    only the first `data: ` segment seen under `looking_first_chunk` is parsed. -/
inductive SegScan where
  | normal (looking : Bool)
  | errSeg (seg : String)
  | exn

/-- The inner `for chunk_str in chunks:` loop of stream_generator. -/
def genSegs (parse : String → Option Json) : Bool → List String → SegScan
  | looking, [] => .normal looking
  | looking, p :: rest =>
      if startsData p then
        if looking then
          match parse (dropDataTag p) with
          | none => .exn
          | some j =>
              if j.hasKey "error" || j.hasKey "detail" then .errSeg p
              else genSegs parse false rest
        else genSegs parse looking rest
      else genSegs parse looking rest

/-- How stream_generator finished: ran to the end of the upstream, returned
    early on a first-event error (carrying the raw segment), or let a json5
    exception escape. -/
inductive GenTerminal where
  | completed
  | firstEventError (detail : String)
  | raised

/-- The chunks stream_generator yields, plus how it terminates. -/
structure GenOut where
  yields : List Chunk
  terminal : GenTerminal

/-- stream_generator (request_handler.py:21-59) run over all upstream chunks:
    non-UTF-8 chunks skip the content check, non-empty chunks are yielded,
    a first-event error returns without yielding the offending chunk. -/
def genRun (parse : String → Option Json) : Bool → List Chunk → GenOut
  | _, [] => ⟨[], .completed⟩
  | looking, .bin bs :: rest =>
      let r := genRun parse looking rest
      ⟨(if bs.isEmpty then [] else [Chunk.bin bs]) ++ r.yields, r.terminal⟩
  | looking, .txt s :: rest =>
      match genSegs parse looking (segments s) with
      | .errSeg seg => ⟨[], .firstEventError seg⟩
      | .exn => ⟨[], .raised⟩
      | .normal looking' =>
          let r := genRun parse looking' rest
          ⟨(if s.data.isEmpty then [] else [Chunk.txt s]) ++ r.yields, r.terminal⟩

/-- Result of the priming loop (request_handler.py:62-88): a failure pair, an
    escaped exception (caught by the outer handler), or a committed stream with
    the first real chunk and the unconsumed generator output. -/
inductive PrimeResult where
  | fail (detail : Option String)
  | failUnexpected
  | ok (first : Option Chunk) (rest : List Chunk)

/-- The priming loop: pull chunks until a `data: ` segment is found; drop
    non-decodable and comment-only chunks; re-check the first real segment for
    `error` / `detail`. -/
def primeRun (parse : String → Option Json) : List Chunk → GenTerminal → PrimeResult
  | [], .completed => .ok none []
  | [], .firstEventError d => .fail (some d)
  | [], .raised => .failUnexpected
  | .bin _ :: rest, t => primeRun parse rest t
  | .txt s :: rest, t =>
      match (segments s).find? startsData with
      | none => primeRun parse rest t
      | some p =>
          match parse (dropDataTag p) with
          | none => .failUnexpected
          | some j =>
              if j.hasKey "error" || j.hasKey "detail" then .fail (some p)
              else .ok (some (Chunk.txt s)) rest

/-- Scan state carried by combined_generator (request_handler.py:98-127):
    `error_in_stream`, `error_detail`, `tokens_usage`. -/
structure MidState where
  errorInStream : Bool
  errorDetail : Option String
  tokensUsage : Option Json

/-- combined_generator's per-chunk segment scan: every `data: ` segment is
    parsed; a segment with a top-level `code` records the error (detail ends up
    as the raw segment, line 116) without stopping; a `usage` key updates the
    usage; a parse failure is swallowed by the bare `except`, aborting the scan
    of the remaining segments of this chunk only. -/
def scanSegs (parse : String → Option Json) : MidState → List String → MidState
  | st, [] => st
  | st, p :: rest =>
      if startsData p then
        match parse (dropDataTag p) with
        | none => st
        | some j =>
            let st1 : MidState :=
              if j.hasKey "code" then ⟨true, some p, st.tokensUsage⟩ else st
            let st2 : MidState :=
              if j.hasKey "usage" then ⟨st1.errorInStream, st1.errorDetail, j.getVal "usage"⟩
              else st1
            scanSegs parse st2 rest
      else scanSegs parse st rest

/-- combined_generator's scan over the chunks that follow the first real one;
    a non-decodable chunk skips the check (bare `except`).  Every chunk is
    yielded regardless. -/
def midScan (parse : String → Option Json) : MidState → List Chunk → MidState
  | st, [] => st
  | st, .bin _ :: rest => midScan parse st rest
  | st, .txt s :: rest => midScan parse (scanSegs parse st (segments s)) rest

/-- Observable behaviour of a returned StreamingResponse once fully consumed:
    the chunks written to the client in order, and the final values of the
    shared flags. -/
structure Streamed where
  delivered : List Chunk
  errorInStream : Bool
  errorDetail : Option String
  tokensUsage : Option Json

/-- What make_llm_request returns in its first tuple slot. -/
inductive LLMResponse where
  | jsonBody (j : Json)
  | streamResp (s : Streamed)

/-- The streaming branch of make_llm_request (request_handler.py:20-133),
    given the upstream HTTP status, the decoded error body used when
    status ≥ 400, and the upstream chunk sequence.  Returns the
    (response, error_detail) pair; a committed response records everything
    combined_generator yields. -/
def streamRequest (parse : String → Option Json) (status : Nat) (statusBody : String)
    (chunks : List Chunk) : Option LLMResponse × Option String :=
  if 400 ≤ status then (none, some statusBody)
  else
    let g := genRun parse true chunks
    match primeRun parse g.yields g.terminal with
    | .fail d => (none, d)
    | .failUnexpected => (none, some "Unexpected error")
    | .ok first rest =>
        let st := midScan parse ⟨false, none, none⟩ rest
        (some (.streamResp ⟨first.toList ++ rest, st.errorInStream, st.errorDetail, st.tokensUsage⟩),
         none)

/-- Body of a 2xx non-streaming response: either the parsed JSON or a json5
    parse failure. -/
inductive NonStreamBody where
  | invalid
  | val (j : Json)

/-- Occurrence of `needle` as a contiguous character run of `hay`
    (Python `needle in hay` on strings; the empty needle is always found). -/
def containsRun (needle : List Char) : List Char → Bool
  | [] => needle.isEmpty
  | c :: rest => needle.isPrefixOf (c :: rest) || containsRun needle rest

/-- Python `k in j` for a string key `k` and a decoded JSON value `j`: key
    membership for dicts, element membership for lists (a Python str only ever
    equals a str), substring test for strings; `none` models the TypeError
    "argument of type ... is not iterable" raised for numbers, booleans and
    null, which the outer handler at request_handler.py:166 turns into a
    failed attempt. -/
def pyContains (j : Json) (k : String) : Option Bool :=
  match j with
  | .obj _ => some (j.hasKey k)
  | .arr es => some (es.any (fun e => match e with | .str s => s == k | _ => false))
  | .str s => some (containsRun k.data s.data)
  | .num _ => none
  | .bool _ => none
  | .null => none

/-- The error branch of the non-streaming classifier (request_handler.py:151):
    `response_json.get("error", default-empty-dict).get("message") or
    response_json.get("detail")`.  `.get` on a str/list receiver, or
    `.get("message")` on a non-dict `error` value, raises AttributeError,
    which the outer handler turns into the "Unexpected error" failure;
    otherwise the attempt fails with the extracted detail (abbreviated here:
    no proved property reads its text). -/
def nonStreamErrBranch (j : Json) : Option LLMResponse × Option String :=
  match j with
  | .obj fs =>
      match lookupField fs "error" with
      | some (.obj _) => (none, some "upstream json error")
      | none => (none, some "upstream json error")
      | some _ => (none, some "Unexpected error")
  | _ => (none, some "Unexpected error")

/-- The non-streaming branch of make_llm_request (request_handler.py:135-159).
    The checks `"error" in response_json or "detail" in response_json` are
    evaluated left to right with Python `in` semantics (`pyContains`); a
    TypeError from `in` on a non-iterable body escapes to the outer handler
    and fails the attempt.  Error-detail strings of logging-only branches are
    abbreviated (no proved property reads them). -/
def nonStreamRequest (status : Nat) (rawText : String) (parsed : NonStreamBody) :
    Option LLMResponse × Option String :=
  if 400 ≤ status then (none, some rawText)
  else
    match parsed with
    | .invalid => (none, some "Invalid JSON response")
    | .val j =>
        match pyContains j "error" with
        | none => (none, some "Unexpected error")
        | some true => nonStreamErrBranch j
        | some false =>
            match pyContains j "detail" with
            | none => (none, some "Unexpected error")
            | some true => nonStreamErrBranch j
            | some false => (some (.jsonBody j), none)

end LLMGateway

namespace LLMGateway

/-- One element of a rule's `fallback_models` list, after the loader's
    `model_dump(exclude_none=True)` (config/loader.py:37-45).  The synthesized
    fallback candidate (chat.py:54) has all optional fields absent and
    `use_provider_order_as_fallback` defaulting to false; the code's
    `rule["use_provider_order_as_fallback"]` access is guarded by a non-empty
    `providers_order`, so the default is never observed there. -/
structure Candidate where
  provider : String
  model : String
  use_provider_order_as_fallback : Bool
  providers_order : Option (List String)
  retry_delay : Option Int
  retry_count : Option Int
  custom_body_params : List (String × Json)
  custom_headers : List (String × String)

/-- One entry of the providers snapshot (config/loader.py:14-16). -/
structure ProviderDetails where
  baseUrl : String
  apikey : String

/-- First binding in a generic association list (Python `dict.get`). -/
def assocGet {α : Type} : List (String × α) → String → Option α
  | [], _ => none
  | (k', v) :: rest, k => if k' == k then some v else assocGet rest k

/-- Python `s.rstrip('/')` used to normalise the base URL (chat.py:113). -/
def rstripSlash (s : String) : String :=
  String.mk (s.data.reverse.dropWhile (fun c => c == '/')).reverse

/-- API-key resolution (chat.py:99-103): the environment value, or the
    configured reference itself when the variable is unset or empty. -/
def resolveApiKey (env : String → Option String) (ref : String) : String :=
  let v := (env ref).getD ""
  if v.data.isEmpty && !ref.data.isEmpty then ref else v

/-- The header dict built at chat.py:105-111, then overlaid with the
    candidate's `custom_headers` (chat.py:120-123). -/
def buildHeaders (env : String → Option String) (pc : ProviderDetails)
    (c : Candidate) : List (String × String) :=
  let key := resolveApiKey env pc.apikey
  let base : List (String × String) :=
    [("Content-Type", "application/json"),
     ("HTTP-Referer", "https://github.com/fabiojbg/LLMApiGateway"),
     ("X-Title", "LLMGateway")] ++
    (if key.data.isEmpty then [] else [("Authorization", "Bearer " ++ key)])
  c.custom_headers.foldl (fun acc e => setEntry acc e.1 e.2) base

/-- The payload built inside the retry loop for the standard branch
    (chat.py:132-137): a fresh deep copy of the original body with only the
    model override and, when `providers_order` is non-empty, the order
    injection.  The `custom_body_params` overlay of chat.py:114-119 is applied
    to a payload that this rebuild discards. -/
def buildPayloadStd (body : Json) (c : Candidate) : Json :=
  let p := body.setKey "model" (.str c.model)
  match c.providers_order with
  | none => p
  | some l =>
      if l.isEmpty then p
      else
        (p.setKey "provider" (.obj [("order", .arr (l.map Json.str))])).setKey
          "allow_fallbacks" (.bool false)

/-- The payload built per sub-provider (chat.py:162-167). -/
def buildPayloadSub (body : Json) (c : Candidate) (sub : String) : Json :=
  ((body.setKey "model" (.str c.model)).setKey "provider"
      (.obj [("order", .arr [.str sub])])).setKey "allow_fallbacks" (.bool false)

/-- A request handed to make_llm_request. -/
structure SentRequest where
  url : String
  headers : List (String × String)
  payload : Json

/-- Observable side effects of the candidate loop, in order. -/
inductive Ev where
  | call (req : SentRequest)
  | sleepFor (secs : Int)

/-- Threaded loop state: upstream call counter, event trace, and
    `last_error_detail` (chat.py:84). -/
structure LoopSt where
  k : Nat
  evs : List Ev
  lastErr : String

/-- Python `str(x)` of an optional error detail. -/
def pyStrOpt : Option String → String
  | none => "None"
  | some s => s

/-- Success test at chat.py:144/176: `response_data and error_detail is None`. -/
def respOk : Option LLMResponse → Option String → Bool
  | none, _ => false
  | some (.jsonBody j), ed => j.truthy && ed.isNone
  | some (.streamResp _), ed => ed.isNone

/-- One standard attempt (chat.py:129-154). -/
def runStd (upstream : Nat → Option LLMResponse × Option String) (url : String)
    (headers : List (String × String)) (body : Json) (c : Candidate)
    (st : LoopSt) : Option LLMResponse × LoopSt :=
  let payload := buildPayloadStd body c
  let (rd, ed) := upstream st.k
  let st' : LoopSt := ⟨st.k + 1, st.evs ++ [.call ⟨url, headers, payload⟩], st.lastErr⟩
  if respOk rd ed then (rd, st')
  else
    (none, { st' with lastErr :=
      "Model " ++ c.model ++ " failed with provider '" ++ c.provider ++ "': " ++ pyStrOpt ed })

/-- The per-sub-provider loop (chat.py:157-188). -/
def runSubs (upstream : Nat → Option LLMResponse × Option String) (url : String)
    (headers : List (String × String)) (body : Json) (c : Candidate) :
    List String → LoopSt → Option LLMResponse × LoopSt
  | [], st => (none, st)
  | sub :: rest, st =>
      let payload := buildPayloadSub body c sub
      let (rd, ed) := upstream st.k
      let st' : LoopSt := ⟨st.k + 1, st.evs ++ [.call ⟨url, headers, payload⟩], st.lastErr⟩
      if respOk rd ed then (rd, st')
      else
        runSubs upstream url headers body c rest
          { st' with lastErr :=
            "Model '" ++ c.model ++ "' failed from provider '" ++ c.provider ++
              "' and sub-provider " ++ sub ++ " : " ++ pyStrOpt ed }

/-- How one candidate's retry loop ends. -/
inductive CandOut where
  | success (r : LLMResponse)
  | exhausted
  | crashed

/-- Branch test at chat.py:129: standard mode when `providers_order` is absent
    or empty, or `use_provider_order_as_fallback` is false. -/
def stdMode (c : Candidate) : Bool :=
  (match c.providers_order with
   | none => true
   | some l => l.isEmpty) || c.use_provider_order_as_fallback == false

/-- The `while retry_count >= 0` loop (chat.py:127-193).  `rc` is the current
    value of `retry_count`; the fuel equals the number of remaining iterations.
    After a failed round with `retry_count > 0`, the sleep condition
    `retry_delay>0 and retry_delay<120` compares `None` with an int when
    `retry_delay` is absent — a TypeError that escapes the handler. -/
def retryRounds (upstream : Nat → Option LLMResponse × Option String) (url : String)
    (headers : List (String × String)) (body : Json) (c : Candidate) :
    Nat → Int → LoopSt → CandOut × LoopSt
  | 0, _, st => (.exhausted, st)
  | fuel + 1, rc, st =>
      let (res, st') :=
        if stdMode c then runStd upstream url headers body c st
        else runSubs upstream url headers body c (c.providers_order.getD []) st
      match res with
      | some r => (.success r, st')
      | none =>
          if rc > 0 then
            match c.retry_delay with
            | none => (.crashed, st')
            | some d =>
                let st'' :=
                  if d > 0 && d < 120 then
                    { st' with evs := st'.evs ++ [.sleepFor d] }
                  else st'
                retryRounds upstream url headers body c fuel (rc - 1) st''
          else retryRounds upstream url headers body c fuel (rc - 1) st'

/-- Result of the chat_completions handler. -/
inductive ChatOutcome where
  | success (r : LLMResponse)
  | http503 (lastErr : String)
  | badRequest
  | pyError (msg : String)

/-- The outer `for model_fallback_rule in model_fallbacks_sequence` loop
    (chat.py:85-197).  An unknown provider makes `providers_config.get` return
    `None` and the following `.baseUrl` access raise AttributeError
    (chat.py:95-97); the exception escapes the handler. -/
def providerLoop (providers : List (String × ProviderDetails))
    (env : String → Option String)
    (upstream : Nat → Option LLMResponse × Option String) (body : Json) :
    List Candidate → LoopSt → ChatOutcome × LoopSt
  | [], st => (.http503 st.lastErr, st)
  | c :: rest, st =>
      match assocGet providers c.provider with
      | none => (.pyError "AttributeError", st)
      | some pc =>
          let url := rstripSlash pc.baseUrl ++ "/chat/completions"
          let headers := buildHeaders env pc c
          let rc : Int := c.retry_count.getD 0
          match retryRounds upstream url headers body c (rc + 1).toNat rc st with
          | (.success r, st') => (.success r, st')
          | (.crashed, st') => (.pyError "TypeError", st')
          | (.exhausted, st') => providerLoop providers env upstream body rest st'

end LLMGateway

namespace LLMGateway

/-- The `model_rotation` table: rows keyed by (api_key, gateway_model) holding
    `last_model_index` (model_rotation_db.py:36-43).  Stored values are the
    non-negative indices the code itself writes. -/
abbrev RotationState := List ((String × String) × Nat)

/-- The SELECT at model_rotation_db.py:78-82. -/
def rotLookup (st : RotationState) (apiKey gatewayModel : String) : Option Nat :=
  (st.find? (fun r => r.1.1 == apiKey && r.1.2 == gatewayModel)).map (·.2)

/-- The INSERT at model_rotation_db.py:87-90. -/
def rotInsert (st : RotationState) (apiKey gatewayModel : String) (v : Nat) :
    RotationState :=
  st ++ [((apiKey, gatewayModel), v)]

/-- The UPDATE at model_rotation_db.py:95-98. -/
def rotUpdate (st : RotationState) (apiKey gatewayModel : String) (v : Nat) :
    RotationState :=
  st.map (fun r =>
    if r.1.1 == apiKey && r.1.2 == gatewayModel then (r.1, v) else r)

/-- ModelRotationDB.get_next_model_index (model_rotation_db.py:56-110).
    `fail` models any sqlite exception: the handler rolls back and returns 0,
    leaving the table unchanged. -/
def get_next_model_index (fail : Bool) (st : RotationState)
    (apiKey gatewayModel : String) (totalModels : Int) : Nat × RotationState :=
  if totalModels ≤ 0 then (0, st)
  else if fail then (0, st)
  else
    match rotLookup st apiKey gatewayModel with
    | none => (0, rotInsert st apiKey gatewayModel 0)
    | some cur =>
        let nxt := (cur + 1) % totalModels.toNat
        (nxt, rotUpdate st apiKey gatewayModel nxt)

/-- A validated rule value as stored in `fallback_rules`
    (config/loader.py:150-154). -/
structure RuleCfg where
  fallback_models : List Candidate
  rotate_models : Bool

/-- The two snapshots a ConfigLoader instance exposes
    (config/loader.py:66-67). -/
structure LoaderState where
  providersConfig : List (String × ProviderDetails)
  fallbackRules : List (String × RuleCfg)

/-- One parsed element of the rules file after the pydantic pass
    (config/loader.py:47-50, 178). -/
structure RuleEntry where
  gateway_model_name : String
  fallback_models : List Candidate
  rotate_models : Bool

/-- Rebuilds a Python dict from a key/value sequence (later duplicates win,
    insertion ordered). -/
def buildAssoc {α : Type} (l : List (String × α)) : List (String × α) :=
  l.foldl (fun acc e => setEntry acc e.1 e.2) []

/-- The `fallback_rules_temp` dict (config/loader.py:177-184). -/
def buildRules (entries : List RuleEntry) : List (String × RuleCfg) :=
  buildAssoc (entries.map (fun e => (e.gateway_model_name, ⟨e.fallback_models, e.rotate_models⟩)))

/-- _perform_provider_semantic_validation (config/loader.py:102-122) restricted
    to its only state-relevant check: a truthy configured fallback provider
    must exist in the prospective snapshot (the api-key loop only warns). -/
def semValid (fallbackProvider : String)
    (provs : List (String × ProviderDetails)) : Bool :=
  if !fallbackProvider.data.isEmpty && !(provs.any (fun e => e.1 == fallbackProvider))
  then false else true

/-- load_providers (config/loader.py:69-100) given the parsed file content
    (`none` = missing file, read failure, or a pydantic error — all of which
    `sys.exit(1)`).  The new snapshot is installed *before* the semantic
    validation that may exit. -/
def load_providers (fallbackProvider : String)
    (parsedProviders : Option (List (String × ProviderDetails)))
    (st : LoaderState) : Option LoaderState :=
  match parsedProviders with
  | none => none
  | some plist =>
      let cfg := buildAssoc plist
      let st' := { st with providersConfig := cfg }
      if semValid fallbackProvider cfg then some st' else none

/-- How a reload operation ends: returned True, returned False, or the
    process exited inside load_providers. -/
inductive ReloadOutcome where
  | ok
  | failed
  | exited

/-- The per-rule validation loop of reload_fallback_rules
    (config/loader.py:205-221), run against a providers snapshot. -/
def validRules (provs : List (String × ProviderDetails)) :
    List (String × RuleCfg) → Bool
  | [] => true
  | (_, cfg) :: rest =>
      if cfg.fallback_models.isEmpty then false
      else if cfg.fallback_models.all (fun c =>
          !c.provider.data.isEmpty && !c.model.data.isEmpty &&
            (provs.any (fun e => e.1 == c.provider))) then
        validRules provs rest
      else false

/-- ConfigLoader.reload_fallback_rules (config/loader.py:166-234).
    `parsedRules = none` models a missing-file read error or a pydantic
    ValidationError (both return False).  When the providers snapshot is empty
    the code first calls load_providers — mutating `providersConfig` — and
    returns False if the result is still empty. -/
def finishRules (temp : List (String × RuleCfg)) (st1 : LoaderState) :
    ReloadOutcome × LoaderState :=
  if validRules st1.providersConfig temp then
    (.ok, { st1 with fallbackRules := temp })
  else (.failed, st1)

def reload_fallback_rules (fallbackProvider : String) (fileExists : Bool)
    (parsedRules : Option (List RuleEntry))
    (parsedProviders : Option (List (String × ProviderDetails)))
    (st : LoaderState) : ReloadOutcome × LoaderState :=
  if !fileExists then (.failed, st)
  else
    match parsedRules with
    | none => (.failed, st)
    | some entries =>
        if st.providersConfig.isEmpty then
          match load_providers fallbackProvider parsedProviders st with
          | none => (.exited, st)
          | some st1 =>
              if st1.providersConfig.isEmpty then (.failed, st1)
              else finishRules (buildRules entries) st1
        else finishRules (buildRules entries) st

/-- ConfigLoader.reload_providers_config (config/loader.py:236-282).
    `parsedProviders = none` models a missing file, a non-list document, a
    read failure, or a pydantic ValidationError (all return False). -/
def reload_providers_config (fallbackProvider : String) (fileExists : Bool)
    (parsedProviders : Option (List (String × ProviderDetails)))
    (st : LoaderState) : ReloadOutcome × LoaderState :=
  if !fileExists then (.failed, st)
  else
    match parsedProviders with
    | none => (.failed, st)
    | some plist =>
        if semValid fallbackProvider (buildAssoc plist) then
          (.ok, { st with providersConfig := buildAssoc plist })
        else (.failed, st)

end LLMGateway

namespace LLMGateway

/-- The payloads of the make_llm_request calls in a trace, in order. -/
def sentPayloads : List Ev → List Json
  | [] => []
  | .call r :: rest => r.payload :: sentPayloads rest
  | .sleepFor _ :: rest => sentPayloads rest

/-- The sleep durations in a trace, in order. -/
def sleepsOf : List Ev → List Int
  | [] => []
  | .call _ :: rest => sleepsOf rest
  | .sleepFor d :: rest => d :: sleepsOf rest

/-- Loop state at handler entry (chat.py:84). -/
def loopInit : LoopSt := ⟨0, [], "No providers were attempted."⟩

/-- An environment with no variables set. -/
def demoEnvEmpty : String → Option String := fun _ => none

/-- A provider entry used in concrete evaluations. -/
def demoPd : ProviderDetails := ⟨"https://api.example/", "SECRET_KEY"⟩

/-- An upstream that fails every attempt. -/
def failUp : Nat → Option LLMResponse × Option String := fun _ => (none, some "boom")

end LLMGateway

namespace LLMGateway

/-- **C5.** ModelRotationDB.get_next_model_index: missing row inserts and
    returns 0; an existing row advances to `(stored + 1) mod n` and stores it;
    a storage failure returns 0 with the table unchanged; in every case the
    returned index lies in `[0, n)` for `n > 0`. -/
theorem C5_rotation_next_index (fail : Bool) (st : RotationState)
    (apiKey gatewayModel : String) (n : Nat) (h : 0 < n) :
    (fail = true →
      get_next_model_index fail st apiKey gatewayModel (n : Int) = (0, st)) ∧
    (fail = false → rotLookup st apiKey gatewayModel = none →
      get_next_model_index fail st apiKey gatewayModel (n : Int) =
        (0, rotInsert st apiKey gatewayModel 0)) ∧
    (∀ cur, fail = false → rotLookup st apiKey gatewayModel = some cur →
      get_next_model_index fail st apiKey gatewayModel (n : Int) =
        ((cur + 1) % n, rotUpdate st apiKey gatewayModel ((cur + 1) % n))) ∧
    (get_next_model_index fail st apiKey gatewayModel (n : Int)).1 < n := by
  have hn : ¬ ((n : Int) ≤ 0) := by
    simp only [not_le]
    exact_mod_cast h
  have htn : (n : Int).toNat = n := Int.toNat_natCast n
  refine ⟨?_, ?_, ?_, ?_⟩
  · intro hf
    simp [get_next_model_index, hn, hf]
  · intro hf hrow
    simp [get_next_model_index, hn, hf, hrow]
  · intro cur hf hrow
    simp [get_next_model_index, hn, hf, hrow, htn]
  · unfold get_next_model_index
    rw [if_neg hn]
    cases fail with
    | true => simpa using h
    | false =>
        simp only [if_neg]
        cases hrow : rotLookup st apiKey gatewayModel with
        | none => simpa [hrow] using h
        | some cur =>
            simp only [hrow, htn]
            exact Nat.mod_lt _ h

/-- Witness for C5 at a concrete table: the stored index 4 for key ("k","m")
    advances to (4+1) mod 3 = 2, which is below 3. -/
theorem C5_rotation_witness :
    0 < 3 ∧
      get_next_model_index false [(("k", "m"), 4)] "k" "m" (3 : Int) =
        (2, [(("k", "m"), 2)]) ∧
      (get_next_model_index false [(("k", "m"), 4)] "k" "m" (3 : Int)).1 < 3 := by
  refine ⟨by decide, ?_, ?_⟩
  · have := (C5_rotation_next_index false [(("k", "m"), 4)] "k" "m" 3 (by decide)).2.2.1
      4 rfl (by decide)
    simpa [rotUpdate] using this
  · exact (C5_rotation_next_index false [(("k", "m"), 4)] "k" "m" 3 (by decide)).2.2.2

end LLMGateway

namespace LLMGateway

/-- Request body used in the concrete router evaluations. -/
def demoBody : Json :=
  .obj [("model", .str "gw"), ("stream", .bool false), ("messages", .str "hi")]

/-- Candidate whose rule carries `custom_body_params`. -/
def c4cand : Candidate :=
  ⟨"p", "real-model", false, none, none, none, [("temperature", .num 1)], []⟩

/-- **C4.** The body actually sent upstream for `c4cand` is the deep copy of the
    original body with only `model` replaced: the `custom_body_params` overlay
    of chat.py:116-119 is discarded because both attempt branches rebuild
    `payload` from `request_body_json` (chat.py:132, 162), so `temperature`
    never reaches the provider even though the rule sets it. -/
theorem C4_custom_body_params_not_sent :
    sentPayloads
        (providerLoop [("p", demoPd)] demoEnvEmpty failUp demoBody [c4cand] loopInit).2.evs =
      [.obj [("model", .str "real-model"), ("stream", .bool false), ("messages", .str "hi")]] ∧
    (Json.obj [("model", .str "real-model"), ("stream", .bool false),
        ("messages", .str "hi")]).getVal "temperature" = none ∧
    c4cand.custom_body_params = [("temperature", .num 1)] := by
  exact ⟨rfl, rfl, rfl⟩

/-- Candidate with two retries and no `retry_delay` configured. -/
def c6cand : Candidate := ⟨"p", "m6", false, none, none, some 2, [], []⟩

/-- The same candidate with `retry_delay: 0` present. -/
def c6candDelay : Candidate := ⟨"p", "m6", false, none, some 0, some 2, [], []⟩

/-- **C6.** With `retry_count = 2` and every attempt failing, the claim demands
    exactly 3 invocations.  When `retry_delay` is absent the sleep condition
    `retry_delay>0` (chat.py:190) compares None with an int after the first
    failed round, so only 1 invocation happens and the handler dies with a
    TypeError; with a `retry_delay` present the loop does make the 3
    invocations and then falls through to 503. -/
theorem C6_retry_count_attempt_trace :
    (providerLoop [("p", demoPd)] demoEnvEmpty failUp demoBody [c6cand] loopInit).1 =
        .pyError "TypeError" ∧
    (sentPayloads
        (providerLoop [("p", demoPd)] demoEnvEmpty failUp demoBody [c6cand] loopInit).2.evs).length =
      1 ∧
    (providerLoop [("p", demoPd)] demoEnvEmpty failUp demoBody [c6candDelay] loopInit).1 =
        .http503 "Model m6 failed with provider 'p': boom" ∧
    (sentPayloads
        (providerLoop [("p", demoPd)] demoEnvEmpty failUp demoBody [c6candDelay] loopInit).2.evs).length =
      3 := by
  exact ⟨rfl, rfl, rfl, rfl⟩

/-- Candidate with one retry and no `retry_delay`. -/
def c7candNone : Candidate := ⟨"p", "m7", false, none, none, some 1, [], []⟩

/-- The same candidate with `retry_delay` 119, 120, 0 and -1. -/
def c7cand119 : Candidate := ⟨"p", "m7", false, none, some 119, some 1, [], []⟩

def c7cand120 : Candidate := ⟨"p", "m7", false, none, some 120, some 1, [], []⟩

def c7cand0 : Candidate := ⟨"p", "m7", false, none, some 0, some 1, [], []⟩

def c7candNeg : Candidate := ⟨"p", "m7", false, none, some (-1), some 1, [], []⟩

/-- Runs a single-candidate sequence against the always-failing upstream and
    reports (outcome is a Python error, number of calls, sleeps). -/
def c7trace (c : Candidate) : Bool × Nat × List Int :=
  let r := providerLoop [("p", demoPd)] demoEnvEmpty failUp demoBody [c] loopInit
  ((match r.1 with | .pyError _ => true | _ => false),
   (sentPayloads r.2.evs).length, sleepsOf r.2.evs)

/-- **C7.** With retries remaining, values 119 sleeps, and 120 / 0 / -1 do not
    but still retry — matching the claim's boundary — yet an *absent*
    `retry_delay` does not "disable the sleep and proceed": the comparison
    `retry_delay>0` at chat.py:190 raises TypeError after one call, killing
    the request. -/
theorem C7_retry_delay_sleep_trace :
    c7trace c7candNone = (true, 1, []) ∧
    c7trace c7cand119 = (false, 2, [119]) ∧
    c7trace c7cand120 = (false, 2, []) ∧
    c7trace c7cand0 = (false, 2, []) ∧
    c7trace c7candNeg = (false, 2, []) := by
  exact ⟨rfl, rfl, rfl, rfl, rfl⟩

/-- A candidate naming a provider absent from the snapshot, then a good one. -/
def cGhost : Candidate := ⟨"ghost", "mg", false, none, none, none, [], []⟩

def cGood : Candidate := ⟨"good", "mok", false, none, none, none, [], []⟩

/-- An upstream that succeeds immediately. -/
def okUp : Nat → Option LLMResponse × Option String :=
  fun _ => (some (.jsonBody (.obj [("id", .str "x")])), none)

/-- **C8.** A candidate whose provider is missing from the snapshot does not
    get skipped: `providers_config.get` returns None and chat.py:97 reads
    `.baseUrl` on it, so the handler dies (AttributeError → HTTP 500) with
    zero upstream calls, even though the next candidate would have succeeded.
    (The legacy src/llmgateway.py:185-189 has the `if not provider_config:
    continue` guard the claim describes.) -/
theorem C8_unknown_provider_crashes_not_skips :
    providerLoop [("good", demoPd)] demoEnvEmpty okUp demoBody [cGhost, cGood] loopInit =
      (.pyError "AttributeError", loopInit) ∧
    providerLoop [("good", demoPd)] demoEnvEmpty okUp demoBody [cGood] loopInit =
      (.success (.jsonBody (.obj [("id", .str "x")])),
        ⟨1, [.call ⟨"https://api.example/chat/completions",
          buildHeaders demoEnvEmpty demoPd cGood,
          demoBody.setKey "model" (.str "mok")⟩], loopInit.lastErr⟩) := by
  exact ⟨rfl, rfl⟩

end LLMGateway

namespace LLMGateway

/-- The first `data: ` segment of a chunk, if any (none for non-decodable
    chunks, which the code cannot inspect). -/
def chunkFirstData : Chunk → Option String
  | .bin _ => none
  | .txt s => (segments s).find? startsData

/-- The first non-comment `data: ` segment of an upstream chunk sequence —
    the "first real event" the priming loop waits for. -/
def firstRealSegment : List Chunk → Option String
  | [] => none
  | c :: rest =>
      match chunkFirstData c with
      | some p => some p
      | none => firstRealSegment rest

theorem genSegs_not_looking (parse : String → Option Json) :
    ∀ segs : List String, genSegs parse false segs = .normal false
  | [] => rfl
  | p :: rest => by
      by_cases h : startsData p = true <;>
        simp [genSegs, h, genSegs_not_looking parse rest]

theorem genSegs_no_data (parse : String → Option Json) (looking : Bool) :
    ∀ segs : List String, segs.find? startsData = none →
      genSegs parse looking segs = .normal looking
  | [], _ => rfl
  | p :: rest, h => by
      have hp : ¬ startsData p = true := by
        intro hp
        simp [List.find?_cons_of_pos _ hp] at h
      rw [List.find?_cons_of_neg _ hp] at h
      simp [genSegs, hp, genSegs_no_data parse looking rest h]

theorem genSegs_err (parse : String → Option Json) (p : String) (j : Json)
    (hp : parse (dropDataTag p) = some j)
    (hj : (j.hasKey "error" || j.hasKey "detail") = true) :
    ∀ segs : List String, segs.find? startsData = some p →
      genSegs parse true segs = .errSeg p
  | [], h => by simp [List.find?] at h
  | q :: rest, h => by
      by_cases hq : startsData q = true
      · rw [List.find?_cons_of_pos _ hq, Option.some_inj] at h
        subst h
        simp [genSegs, hq, hp, hj]
      · rw [List.find?_cons_of_neg _ hq] at h
        simp [genSegs, hq, genSegs_err parse p j hp hj rest h]

theorem genSegs_commit (parse : String → Option Json) (p : String) (j : Json)
    (hp : parse (dropDataTag p) = some j)
    (hj : (j.hasKey "error" || j.hasKey "detail") = false) :
    ∀ segs : List String, segs.find? startsData = some p →
      genSegs parse true segs = .normal false
  | [], h => by simp [List.find?] at h
  | q :: rest, h => by
      by_cases hq : startsData q = true
      · rw [List.find?_cons_of_pos _ hq, Option.some_inj] at h
        subst h
        simp [genSegs, hq, hp, hj, genSegs_not_looking]
      · rw [List.find?_cons_of_neg _ hq] at h
        simp [genSegs, hq, genSegs_commit parse p j hp hj rest h]

theorem genRun_not_looking (parse : String → Option Json) :
    ∀ cs : List Chunk,
      genRun parse false cs = ⟨cs.filter chunkNonempty, .completed⟩
  | [] => rfl
  | .bin bs :: rest => by
      by_cases hb : bs.isEmpty <;>
        simp [genRun, genRun_not_looking parse rest, List.filter_cons,
          chunkNonempty, hb]
  | .txt s :: rest => by
      by_cases hs : s.data.isEmpty <;>
        simp [genRun, genSegs_not_looking, genRun_not_looking parse rest,
          List.filter_cons, chunkNonempty, hs]

theorem genRun_no_real (parse : String → Option Json) (looking : Bool) :
    ∀ cs : List Chunk, (∀ c ∈ cs, chunkFirstData c = none) →
      genRun parse looking cs = ⟨cs.filter chunkNonempty, .completed⟩
  | [], _ => rfl
  | .bin bs :: rest, h => by
      have hr := genRun_no_real parse looking rest
        (fun c hc => h c (List.mem_cons_of_mem _ hc))
      by_cases hb : bs.isEmpty <;>
        simp [genRun, hr, List.filter_cons, chunkNonempty, hb]
  | .txt s :: rest, h => by
      have hseg : (segments s).find? startsData = none := by
        simpa [chunkFirstData] using h (.txt s) (List.mem_cons_self _ _)
      have hr := genRun_no_real parse looking rest
        (fun c hc => h c (List.mem_cons_of_mem _ hc))
      by_cases hs : s.data.isEmpty <;>
        simp [genRun, genSegs_no_data parse looking _ hseg, hr,
          List.filter_cons, chunkNonempty, hs]

theorem primeRun_no_real (parse : String → Option Json) :
    ∀ (ys : List Chunk) (t : GenTerminal), (∀ c ∈ ys, chunkFirstData c = none) →
      primeRun parse ys t =
        (match t with
          | .completed => .ok none []
          | .firstEventError d => .fail (some d)
          | .raised => .failUnexpected)
  | [], t, _ => by cases t <;> rfl
  | .bin bs :: rest, t, h => by
      simpa [primeRun] using
        primeRun_no_real parse rest t (fun c hc => h c (List.mem_cons_of_mem _ hc))
  | .txt s :: rest, t, h => by
      have hseg : (segments s).find? startsData = none := by
        simpa [chunkFirstData] using h (.txt s) (List.mem_cons_self _ _)
      simpa [primeRun, hseg] using
        primeRun_no_real parse rest t (fun c hc => h c (List.mem_cons_of_mem _ hc))

theorem genRun_first_err (parse : String → Option Json) (p : String) (j : Json)
    (hp : parse (dropDataTag p) = some j)
    (hj : (j.hasKey "error" || j.hasKey "detail") = true) :
    ∀ cs : List Chunk, firstRealSegment cs = some p →
      ∃ ys, genRun parse true cs = ⟨ys, .firstEventError p⟩ ∧
        ∀ c ∈ ys, chunkFirstData c = none
  | [], h => by simp [firstRealSegment] at h
  | .bin bs :: rest, h => by
      rw [firstRealSegment] at h
      obtain ⟨ys, hg, hy⟩ := genRun_first_err parse p j hp hj rest (by simpa [chunkFirstData] using h)
      refine ⟨(if bs.isEmpty then [] else [Chunk.bin bs]) ++ ys, ?_, ?_⟩
      · simp [genRun, hg]
      · intro c hc
        rcases List.mem_append.mp hc with hc1 | hc2
        · by_cases hb : bs.isEmpty <;> simp [hb] at hc1
          subst hc1
          rfl
        · exact hy c hc2
  | .txt s :: rest, h => by
      rw [firstRealSegment] at h
      cases hcf : chunkFirstData (Chunk.txt s) with
      | some q =>
          rw [hcf] at h
          rw [Option.some_inj] at h
          subst h
          have hseg : (segments s).find? startsData = some q := by
            simpa [chunkFirstData] using hcf
          exact ⟨[], by simp [genRun, genSegs_err parse q j hp hj _ hseg], by simp⟩
      | none =>
          rw [hcf] at h
          obtain ⟨ys, hg, hy⟩ := genRun_first_err parse p j hp hj rest h
          have hseg : (segments s).find? startsData = none := by
            simpa [chunkFirstData] using hcf
          refine ⟨(if s.data.isEmpty then [] else [Chunk.txt s]) ++ ys, ?_, ?_⟩
          · simp [genRun, genSegs_no_data parse true _ hseg, hg]
          · intro c hc
            rcases List.mem_append.mp hc with hc1 | hc2
            · by_cases hs : s.data.isEmpty <;> simp [hs] at hc1
              subst hc1
              simpa [chunkFirstData] using hseg
            · exact hy c hc2

/-- **C2.** If the first non-comment `data: ` event of the upstream parses to
    JSON with a top-level `error` or `detail`, make_llm_request returns the
    failure pair `(None, raw segment)`: no StreamingResponse is created, so the
    error segment is not yielded and the client receives zero bytes from this
    upstream. -/
theorem C2_first_event_error_fails_attempt (parse : String → Option Json)
    (status : Nat) (hst : status < 400) (sbody : String) (cs : List Chunk)
    (p : String) (j : Json)
    (h1 : firstRealSegment cs = some p)
    (h2 : parse (dropDataTag p) = some j)
    (h3 : (j.hasKey "error" || j.hasKey "detail") = true) :
    streamRequest parse status sbody cs = (none, some p) := by
  obtain ⟨ys, hg, hy⟩ := genRun_first_err parse p j h2 h3 cs h1
  unfold streamRequest
  rw [if_neg (by omega)]
  rw [hg]
  simp [primeRun_no_real parse ys (.firstEventError p) hy]

/-- The raw first-event error segment used in the C2 witness. -/
def errSegC2 : String := "data: \x7b\"error\":\x7b\"message\":\"quota\"\x7d\x7d"

/-- Parse oracle for the C2 witness. -/
def pC2 : String → Option Json := fun s =>
  if s = dropDataTag errSegC2 then
    some (.obj [("error", .obj [("message", .str "quota")])])
  else none

/-- Witness for C2: a keep-alive comment followed by an error event makes the
    attempt fail with the raw segment as detail. -/
theorem C2_first_event_witness :
    (200 : Nat) < 400 ∧
      streamRequest pC2 200 "" [.txt ": keep-alive\n\n", .txt (errSegC2 ++ "\n\n")] =
        (none, some errSegC2) := by
  refine ⟨by decide, ?_⟩
  exact C2_first_event_error_fails_attempt pC2 200 (by decide) ""
    [.txt ": keep-alive\n\n", .txt (errSegC2 ++ "\n\n")] errSegC2
    (.obj [("error", .obj [("message", .str "quota")])]) rfl rfl (by decide)

end LLMGateway

namespace LLMGateway

/-- A parse oracle that is never consulted successfully. -/
def pNone : String → Option Json := fun _ => none

/-- **C3 counterexample.** An upstream that closes after only a comment chunk
    does not produce `Failure(StreamFirstEventError, "empty stream")`: the
    priming loop exhausts the generator with no error flag set and
    make_llm_request returns a StreamingResponse that yields nothing, paired
    with error detail None — a *successful* empty streaming response. -/
theorem C3_counterexample_empty_upstream_is_success :
    streamRequest pNone 200 "" [.txt ": OPENROUTER PROCESSING\n\n"] =
      (some (.streamResp ⟨[], false, none, none⟩), none) := rfl

/-- **C3 (amended).** Whenever the upstream closes without any non-comment
    `data: ` event, make_llm_request returns a committed StreamingResponse
    that delivers no chunks, with error detail None; the attempt is treated as
    a success, not as a Failure. -/
theorem C3_empty_stream_returns_empty_success (parse : String → Option Json)
    (status : Nat) (hst : status < 400) (sbody : String) (cs : List Chunk)
    (h : ∀ c ∈ cs, chunkFirstData c = none) :
    streamRequest parse status sbody cs =
      (some (.streamResp ⟨[], false, none, none⟩), none) := by
  unfold streamRequest
  rw [if_neg (by omega)]
  rw [genRun_no_real parse true cs h]
  simp [primeRun_no_real parse (cs.filter chunkNonempty) .completed
    (fun c hc => h c (List.mem_filter.mp hc).1)]
  exact ⟨rfl, rfl, rfl⟩

/-- Witness for C3: a non-decodable chunk and a comment chunk yield the empty
    successful stream. -/
theorem C3_empty_stream_witness :
    streamRequest pNone 200 "x" [.bin [255], .txt ": keep\n\n"] =
      (some (.streamResp ⟨[], false, none, none⟩), none) := by
  refine C3_empty_stream_returns_empty_success pNone 200 (by decide) "x" _ ?_
  intro c hc
  cases hc with
  | head => rfl
  | tail _ hc =>
      cases hc with
      | head => rfl
      | tail _ hc => cases hc

theorem scanSegs_mono (parse : String → Option Json) :
    ∀ (segs : List String) (st : MidState), st.errorInStream = true →
      (scanSegs parse st segs).errorInStream = true
  | [], _, h => h
  | p :: rest, st, h => by
      by_cases hp : startsData p = true
      · cases hj : parse (dropDataTag p) with
        | none => simpa [scanSegs, hp, hj] using h
        | some j =>
            simp only [scanSegs, hp, if_true, hj]
            apply scanSegs_mono parse rest
            by_cases hc : j.hasKey "code" = true <;>
              by_cases hu : j.hasKey "usage" = true <;>
                simp [hc, hu, h]
      · simpa [scanSegs, hp] using scanSegs_mono parse rest st h

theorem midScan_mono (parse : String → Option Json) :
    ∀ (cs : List Chunk) (st : MidState), st.errorInStream = true →
      (midScan parse st cs).errorInStream = true
  | [], _, h => h
  | .bin _ :: rest, st, h => by
      simpa [midScan] using midScan_mono parse rest st h
  | .txt s :: rest, st, h => by
      simpa [midScan] using
        midScan_mono parse rest _ (scanSegs_mono parse (segments s) st h)

theorem scanSegs_code (parse : String → Option Json) (q : String) (je : Json)
    (hq : parse (dropDataTag q) = some je) (hc : je.hasKey "code" = true) :
    ∀ (segs : List String) (st : MidState), segs.find? startsData = some q →
      (scanSegs parse st segs).errorInStream = true
  | [], _, h => by simp [List.find?] at h
  | r :: rest, st, h => by
      by_cases hr : startsData r = true
      · rw [List.find?_cons_of_pos _ hr, Option.some_inj] at h
        subst h
        simp only [scanSegs, hr, if_true, hq]
        apply scanSegs_mono parse rest
        by_cases hu : je.hasKey "usage" = true <;> simp [hc, hu]
      · rw [List.find?_cons_of_neg _ hr] at h
        simpa [scanSegs, hr] using scanSegs_code parse q je hq hc rest st h

theorem midScan_code (parse : String → Option Json) (t q : String) (je : Json)
    (hq : (segments t).find? startsData = some q)
    (hpe : parse (dropDataTag q) = some je) (hc : je.hasKey "code" = true) :
    ∀ (cs : List Chunk) (st : MidState), Chunk.txt t ∈ cs →
      (midScan parse st cs).errorInStream = true
  | [], _, hmem => by cases hmem
  | c :: rest, st, hmem => by
      cases hmem with
      | head =>
          simp only [midScan]
          exact midScan_mono parse rest _
            (scanSegs_code parse q je hpe hc (segments t) st hq)
      | tail _ hmem =>
          cases c with
          | bin bs => simpa [midScan] using midScan_code parse t q je hq hpe hc rest st hmem
          | txt s =>
              simpa [midScan] using midScan_code parse t q je hq hpe hc rest _ hmem

/-- A chunk containing a `data: ` segment cannot be empty. -/
theorem data_chunk_nonempty (s : String) (p : String)
    (h : (segments s).find? startsData = some p) : s.data.isEmpty = false := by
  cases hempty : s.data.isEmpty
  · rfl
  · exfalso
    obtain ⟨d⟩ := s
    rw [List.isEmpty_iff] at hempty
    simp only at hempty
    subst hempty
    simp [segments, splitNNAux, stripNonempty, List.find?] at h

/-- **C1 (amended).** Once a stream is committed, a later event whose JSON has
    a top-level `code` is *recorded* — `error_in_stream` is set and the raw
    segment stored in `error_detail` — but combined_generator keeps yielding:
    the delivered sequence is the committed first chunk followed by every
    non-empty subsequent upstream chunk, including the error segment and all
    bytes after it.  Bytes already written (and all later ones) stay delivered;
    nothing is truncated. -/
theorem C1_code_event_recorded_but_relay_continues (parse : String → Option Json)
    (sbody : String) (s p : String) (j : Json) (rest : List Chunk)
    (h1 : (segments s).find? startsData = some p)
    (h2 : parse (dropDataTag p) = some j)
    (h3 : (j.hasKey "error" || j.hasKey "detail") = false)
    (t q : String) (je : Json)
    (hmem : Chunk.txt t ∈ rest)
    (hq : (segments t).find? startsData = some q)
    (hpe : parse (dropDataTag q) = some je)
    (hcode : je.hasKey "code" = true) :
    ∃ det us,
      streamRequest parse 200 sbody (Chunk.txt s :: rest) =
        (some (.streamResp
          ⟨Chunk.txt s :: rest.filter chunkNonempty, true, det, us⟩), none) := by
  have hs := data_chunk_nonempty s p h1
  have hmemf : Chunk.txt t ∈ rest.filter chunkNonempty :=
    List.mem_filter.mpr ⟨hmem, by simp [chunkNonempty, data_chunk_nonempty t q hq]⟩
  have hflag :=
    midScan_code parse t q je hq hpe hcode (rest.filter chunkNonempty)
      ⟨false, none, none⟩ hmemf
  refine ⟨(midScan parse ⟨false, none, none⟩ (rest.filter chunkNonempty)).errorDetail,
    (midScan parse ⟨false, none, none⟩ (rest.filter chunkNonempty)).tokensUsage, ?_⟩
  unfold streamRequest
  rw [if_neg (by omega)]
  have hgen : genRun parse true (Chunk.txt s :: rest) =
      ⟨Chunk.txt s :: rest.filter chunkNonempty, .completed⟩ := by
    simp [genRun, genSegs_commit parse p j h2 h3 _ h1, genRun_not_looking, hs]
  rw [hgen]
  have hprime : primeRun parse (Chunk.txt s :: rest.filter chunkNonempty)
      GenTerminal.completed = .ok (some (Chunk.txt s)) (rest.filter chunkNonempty) := by
    simp [primeRun, h1, h2, h3]
  simp only [hprime]
  simp [hflag]

end LLMGateway

namespace LLMGateway

/-- A committed first event. -/
def goodSeg : String := "data: \x7b\"choices\":1\x7d"

/-- A mid-stream OpenRouter-style error event with a top-level `code` and a
    nested `error.message`. -/
def codeSeg : String := "data: \x7b\"code\":500,\"error\":\x7b\"message\":\"boom\"\x7d\x7d"

/-- Parse oracle for the C1 scenario. -/
def pC1 : String → Option Json := fun s =>
  if s = dropDataTag goodSeg then some (.obj [("choices", .num 1)])
  else if s = dropDataTag codeSeg then
    some (.obj [("code", .num 500), ("error", .obj [("message", .str "boom")])])
  else none

def chkGood : Chunk := .txt (goodSeg ++ "\n\n")

def chkErr : Chunk := .txt (codeSeg ++ "\n\n")

def chkMore : Chunk := .txt (goodSeg ++ "\n\n")

/-- **C1 counterexample.** After commit, a `code`/`error.message` event is
    detected — the final state records `error_in_stream = true` with the raw
    segment — yet the delivered sequence still contains the error chunk *and*
    the chunk that follows it: combined_generator (request_handler.py:98-125)
    yields unconditionally, so the gateway does not stop emitting bytes after
    recording the mid-stream error. -/
theorem C1_counterexample_bytes_after_code_event :
    streamRequest pC1 200 "" [chkGood, chkErr, chkMore] =
      (some (.streamResp ⟨[chkGood, chkErr, chkMore], true, some codeSeg, none⟩),
        none) := rfl

/-- Witness for the amended C1: in the concrete three-chunk stream the error
    is recorded while the error chunk and the following chunk are delivered. -/
theorem C1_relay_continue_witness :
    ∃ det us,
      streamRequest pC1 200 "" (Chunk.txt (goodSeg ++ "\n\n") :: [chkErr, chkMore]) =
        (some (.streamResp ⟨Chunk.txt (goodSeg ++ "\n\n") ::
          [chkErr, chkMore].filter chunkNonempty, true, det, us⟩), none) :=
  C1_code_event_recorded_but_relay_continues pC1 "" (goodSeg ++ "\n\n") goodSeg
    (.obj [("choices", .num 1)]) [chkErr, chkMore] rfl rfl (by decide)
    (codeSeg ++ "\n\n") codeSeg
    (.obj [("code", .num 500), ("error", .obj [("message", .str "boom")])])
    (List.Mem.head _) rfl rfl (by decide)

end LLMGateway

namespace LLMGateway

theorem load_providers_keeps_rules (fp : String)
    (ppp : Option (List (String × ProviderDetails))) (st st1 : LoaderState)
    (h : load_providers fp ppp st = some st1) :
    st1.fallbackRules = st.fallbackRules := by
  unfold load_providers at h
  cases ppp with
  | none => cases h
  | some plist =>
      simp only at h
      split at h
      · cases h
        rfl
      · cases h

theorem finishRules_failed_keeps (temp : List (String × RuleCfg))
    (st1 : LoaderState) (h : (finishRules temp st1).1 = .failed) :
    (finishRules temp st1).2 = st1 := by
  revert h
  unfold finishRules
  split
  · intro h
    simp at h
  · intro _
    rfl

theorem finishRules_ok_installs (temp : List (String × RuleCfg))
    (st1 : LoaderState) (h : (finishRules temp st1).1 = .ok) :
    (finishRules temp st1).2.fallbackRules = temp := by
  revert h
  unfold finishRules
  split
  · intro _
    rfl
  · intro h
    simp at h

theorem reload_providers_failed_unchanged (fp : String) (fe : Bool)
    (pq : Option (List (String × ProviderDetails))) (st : LoaderState)
    (h : (reload_providers_config fp fe pq st).1 = .failed) :
    (reload_providers_config fp fe pq st).2 = st := by
  revert h
  unfold reload_providers_config
  split
  · intro _
    rfl
  · split
    · intro _
      rfl
    · split
      · intro h
        simp at h
      · intro _
        rfl

theorem reload_providers_ok_installs (fp : String) (fe : Bool)
    (plist : List (String × ProviderDetails)) (st : LoaderState)
    (h : (reload_providers_config fp fe (some plist) st).1 = .ok) :
    (reload_providers_config fp fe (some plist) st).2 =
      { st with providersConfig := buildAssoc plist } := by
  revert h
  unfold reload_providers_config
  split
  · intro h
    simp at h
  · dsimp only
    split
    · intro _
      rfl
    · intro h
      simp at h

theorem reload_rules_failed_keeps_rules (fp : String) (fe : Bool)
    (pr : Option (List RuleEntry)) (pp : Option (List (String × ProviderDetails)))
    (st : LoaderState)
    (h : (reload_fallback_rules fp fe pr pp st).1 = .failed) :
    (reload_fallback_rules fp fe pr pp st).2.fallbackRules = st.fallbackRules := by
  revert h
  unfold reload_fallback_rules
  split
  · intro _
    rfl
  · split
    · intro _
      rfl
    · split
      · split
        · intro h
          simp at h
        · rename_i entries _ st1 heq
          split
          · intro _
            exact load_providers_keeps_rules fp pp st st1 heq
          · intro h
            rw [finishRules_failed_keeps _ _ h]
            exact load_providers_keeps_rules fp pp st st1 heq
      · intro h
        rw [finishRules_failed_keeps _ _ h]

theorem reload_rules_ok_installs (fp : String) (fe : Bool)
    (entries : List RuleEntry) (pp : Option (List (String × ProviderDetails)))
    (st : LoaderState)
    (h : (reload_fallback_rules fp fe (some entries) pp st).1 = .ok) :
    (reload_fallback_rules fp fe (some entries) pp st).2.fallbackRules =
      buildRules entries := by
  revert h
  unfold reload_fallback_rules
  split
  · intro h
    simp at h
  · dsimp only
    split
    · split
      · intro h
        simp at h
      · split
        · intro h
          simp at h
        · intro h
          exact finishRules_ok_installs _ _ h
    · intro h
      exact finishRules_ok_installs _ _ h

/-- **C9 (amended).** A failed reload leaves the snapshot it targets unchanged
    and a successful one installs the validated snapshot — with the caveat that
    `reload_fallback_rules`, when invoked while the providers snapshot is empty,
    first re-runs `load_providers`, which can change the exposed providers even
    though the rules reload then reports failure. -/
theorem C9_reload_failure_keeps_target_snapshot (fp : String) (fe : Bool)
    (pr : Option (List RuleEntry)) (pp pq : Option (List (String × ProviderDetails)))
    (st : LoaderState) :
    ((reload_providers_config fp fe pq st).1 = .failed →
      (reload_providers_config fp fe pq st).2 = st) ∧
    (∀ plist, pq = some plist → (reload_providers_config fp fe pq st).1 = .ok →
      (reload_providers_config fp fe pq st).2 =
        { st with providersConfig := buildAssoc plist }) ∧
    ((reload_fallback_rules fp fe pr pp st).1 = .failed →
      (reload_fallback_rules fp fe pr pp st).2.fallbackRules = st.fallbackRules) ∧
    (∀ entries, pr = some entries → (reload_fallback_rules fp fe pr pp st).1 = .ok →
      (reload_fallback_rules fp fe pr pp st).2.fallbackRules = buildRules entries) := by
  refine ⟨reload_providers_failed_unchanged fp fe pq st, ?_,
    reload_rules_failed_keeps_rules fp fe pr pp st, ?_⟩
  · intro plist hq h
    subst hq
    exact reload_providers_ok_installs fp fe plist st h
  · intro entries hq h
    subst hq
    exact reload_rules_ok_installs fp fe entries pp st h

/-- Provider details used in the C9 scenarios. -/
def c9pd : ProviderDetails := ⟨"https://x/", "K"⟩

/-- A parsed rules-file entry whose candidate references provider "q". -/
def c9entry : RuleEntry := ⟨"gm", [⟨"q", "m", false, none, none, none, [], []⟩], false⟩

/-- A pre-existing rules snapshot value. -/
def c9rule0 : RuleCfg := ⟨[cGood], false⟩

/-- **C9 counterexample.** With an empty providers snapshot, a rules reload
    whose validation fails (unknown provider "q") still reports failure — but
    the exposed providers snapshot has been replaced on the way by the
    `load_providers` call at config/loader.py:198, so the configuration is not
    "left completely unchanged". -/
theorem C9_counterexample_providers_mutated_on_failed_reload :
    reload_fallback_rules "" true (some [c9entry]) (some [("p", c9pd)])
        ⟨[], [("old", c9rule0)]⟩ =
      (.failed, ⟨[("p", c9pd)], [("old", c9rule0)]⟩) ∧
    ([("p", c9pd)] : List (String × ProviderDetails)) ≠ [] := by
  exact ⟨rfl, by simp⟩

/-- Witness for C9: a successful providers reload installs the parsed snapshot;
    a rules reload with a missing file fails and keeps the rules. -/
theorem C9_reload_witness :
    (reload_providers_config "f" true (some [("f", demoPd)]) ⟨[], []⟩).2 =
      ⟨[("f", demoPd)], []⟩ ∧
    (reload_fallback_rules "f" false none none ⟨[], [("r", c9rule0)]⟩).2.fallbackRules =
      [("r", c9rule0)] := by
  constructor
  · exact (C9_reload_failure_keeps_target_snapshot "f" true none none
      (some [("f", demoPd)]) ⟨[], []⟩).2.1 [("f", demoPd)] rfl rfl
  · exact (C9_reload_failure_keeps_target_snapshot "f" false none none none
      ⟨[], [("r", c9rule0)]⟩).2.2.1 rfl

end LLMGateway

namespace LLMGateway

/-- **C10.** A non-streaming 2xx response whose body parses to JSON containing
    neither `error` nor `detail` (in Python's `in` sense — which, for a
    non-iterable body such as a bare number, already raises and fails the
    attempt) comes back from make_llm_request as `(response_json, None)`; the
    router's gate `response_data and error_detail is None` (chat.py:144) then
    accepts it **only when the parsed value is truthy**: a truthy body is
    returned as the success, while a falsy body (such as the empty object) is
    logged as a failed attempt and the loop falls through to the remaining
    candidates. -/
theorem C10_falsy_json_body_triggers_fallback
    (providers : List (String × ProviderDetails)) (env : String → Option String)
    (upstream : Nat → Option LLMResponse × Option String) (body : Json)
    (raw : String) (j : Json) (c1 : Candidate) (rest : List Candidate)
    (pc1 : ProviderDetails) (st : LoopSt)
    (hp : assocGet providers c1.provider = some pc1)
    (hord : c1.providers_order = none)
    (hrc : c1.retry_count = none)
    (herr : pyContains j "error" = some false)
    (hdet : pyContains j "detail" = some false)
    (hu : upstream st.k = nonStreamRequest 200 raw (.val j)) :
    respOk (some (.jsonBody j)) none = j.truthy ∧
    (∀ j2 : Json, pyContains j2 "error" = none →
      nonStreamRequest 200 raw (.val j2) = (none, some "Unexpected error")) ∧
    (j.truthy = true →
      providerLoop providers env upstream body (c1 :: rest) st =
        (.success (.jsonBody j),
          ⟨st.k + 1, st.evs ++ [.call ⟨rstripSlash pc1.baseUrl ++ "/chat/completions",
            buildHeaders env pc1 c1, buildPayloadStd body c1⟩], st.lastErr⟩)) ∧
    (j.truthy = false →
      providerLoop providers env upstream body (c1 :: rest) st =
        providerLoop providers env upstream body rest
          ⟨st.k + 1, st.evs ++ [.call ⟨rstripSlash pc1.baseUrl ++ "/chat/completions",
            buildHeaders env pc1 c1, buildPayloadStd body c1⟩],
            "Model " ++ c1.model ++ " failed with provider '" ++ c1.provider ++ "': " ++ "None"⟩) := by
  have hu' : upstream st.k = (some (.jsonBody j), none) := by
    rw [hu]
    simp [nonStreamRequest, herr, hdet]
  have hstd : stdMode c1 = true := by
    simp [stdMode, hord]
  refine ⟨by simp [respOk], ?_, ?_, ?_⟩
  · intro j2 h2
    simp [nonStreamRequest, h2]
  · intro ht
    simp [providerLoop, hp, hrc, retryRounds, hstd, runStd, hu', respOk, ht]
  · intro ht
    simp [providerLoop, hp, hrc, retryRounds, hstd, runStd, hu', respOk, ht, pyStrOpt]

/-- Candidate used in the C10 witness. -/
def c10c1 : Candidate := ⟨"p", "m10", false, none, none, none, [], []⟩

/-- Upstream for the C10 witness: the first call returns a 2xx empty-object
    body, later calls succeed. -/
def c10up : Nat → Option LLMResponse × Option String := fun k =>
  if k = 0 then nonStreamRequest 200 "" (.val (.obj [])) else okUp k

/-- Witness for C10: the empty JSON object is falsy, so the first candidate's
    2xx `\x7b\x7d` body is treated as a failed attempt and the loop moves on to
    the second candidate; a 2xx body parsing to the bare number 5 fails the
    attempt via the TypeError path rather than being returned as a success. -/
theorem C10_falsy_body_witness :
    Json.truthy (.obj []) = false ∧
    nonStreamRequest 200 "" (.val (.num 5)) = (none, some "Unexpected error") ∧
    providerLoop [("p", demoPd)] demoEnvEmpty c10up demoBody [c10c1, cGood] loopInit =
      providerLoop [("p", demoPd)] demoEnvEmpty c10up demoBody [cGood]
        ⟨1, [.call ⟨"https://api.example/chat/completions",
          buildHeaders demoEnvEmpty demoPd c10c1, buildPayloadStd demoBody c10c1⟩],
          "Model m10 failed with provider 'p': None"⟩ := by
  have h := C10_falsy_json_body_triggers_fallback [("p", demoPd)] demoEnvEmpty c10up
    demoBody "" (.obj []) c10c1 [cGood] demoPd loopInit rfl rfl rfl rfl rfl rfl
  exact ⟨rfl, h.2.1 (.num 5) rfl, h.2.2.2 rfl⟩

end LLMGateway
